import Mathlib

/-!
# Verification of `comfyui_aws_stack/construct/codebuild_construct.py`

A shallow embedding of the `CodeBuildConstruct` CDK construct (v1), which
declares an ECR repository, an S3 build-context asset, a CodeBuild project
with a three-phase build-spec, two narrow IAM grants and two cdk-nag
suppressions.  The repository's spec also describes a second variant (v2)
whose source is not present; its behaviour is modelled from the spec where
a claim needs it.

Construction in CDK is a pure assembly step, so the construct is embedded
as a Lean function from the scope's resolved context (account, region,
asset location) and the construct id to the declared configuration.
-/

namespace ComfyUI

/-- `aws_cdk.RemovalPolicy` values used by the constructs. -/
inductive RemovalPolicy where
  | destroy
  | retain
deriving DecidableEq, Repr

/-- The declared configuration of an `aws_ecr.Repository`. -/
structure Repository where
  repository_name : String
  removal_policy : RemovalPolicy
  empty_on_delete : Bool
deriving DecidableEq, Repr

/-- The declared configuration of an `aws_s3_assets.Asset`: the local path
it packages plus the bucket/key the (content-addressed) upload resolves to. -/
structure Asset where
  path : String
  s3_bucket_name : String
  s3_object_key : String
deriving DecidableEq, Repr

/-- One phase of a CodeBuild build-spec: its name and its ordered shell
commands, exactly as passed to `BuildSpec.from_object`. -/
structure Phase where
  name : String
  commands : List String
deriving DecidableEq, Repr

/-- A CodeBuild build-spec document: version string and ordered phases. -/
structure BuildSpec where
  version : String
  phases : List Phase
deriving DecidableEq, Repr

/-- An action authorized by a grant call on the construct's resources. -/
inductive Action where
  | pull
  | push
  | read
deriving DecidableEq, Repr

/-- A resource that a grant can target. -/
inductive GrantTarget where
  | repository (repository_name : String)
  | asset (bucket key : String)
deriving DecidableEq, Repr

/-- A permission grant issued from the build project to a resource:
`grant_pull_push` authorizes pull and push on the repository,
`grant_read` authorizes read on the asset. -/
structure Grant where
  target : GrantTarget
  actions : List Action
deriving DecidableEq, Repr

/-- A cdk-nag suppression entry: rule id and stated justification. -/
structure Suppression where
  id : String
  reason : String
deriving DecidableEq, Repr

/-- The declared configuration of the `codebuild.Project`. -/
structure Project where
  privileged : Bool
  compute_type_large : Bool
  environment_variables : List (String × String)
  build_spec : BuildSpec
deriving DecidableEq, Repr

/-- The context the construct's scope resolves: the stack's account and
region (`Stack.of(self)`) and the bucket/key the docker asset upload
resolves to.  These are the only scope-dependent inputs of the construct. -/
structure Env where
  account : String
  region : String
  asset_bucket : String
  asset_key : String
deriving DecidableEq, Repr

/-- The URI an `ecr.Repository`'s `repository_uri` attribute resolves to:
`{account}.dkr.ecr.{region}.amazonaws.com/{name}`. -/
def repositoryUri (env : Env) (name : String) : String :=
  env.account ++ ".dkr.ecr." ++ env.region ++ ".amazonaws.com/" ++ name

/-- Everything `CodeBuildConstruct.__init__` declares, together with the
attributes it exposes (`ecr_repository`, `codebuild_project`, `image_tag`). -/
structure ConstructState where
  ecr_repository : Repository
  docker_asset : Asset
  codebuild_project : Project
  grants : List Grant
  suppressions : List Suppression
  image_tag : String
deriving DecidableEq, Repr

/-- Shallow embedding of `CodeBuildConstruct.__init__` (v1): the declared
configuration as a function of the scope's resolved context and the
construct id.  Field by field this mirrors the Python source. -/
def codeBuildConstruct (env : Env) (construct_id : String) : ConstructState :=
  let _ := construct_id
  let ecr_repository : Repository :=
    { repository_name := "comfyui-repository"
      removal_policy := RemovalPolicy.destroy
      empty_on_delete := true }
  let docker_asset : Asset :=
    { path := "comfyui_aws_stack/docker"
      s3_bucket_name := env.asset_bucket
      s3_object_key := env.asset_key }
  let codebuild_project : Project :=
    { privileged := true
      compute_type_large := true
      environment_variables :=
        [ ("ECR_REPOSITORY_URI", repositoryUri env ecr_repository.repository_name)
        , ("IMAGE_TAG", "latest")
        , ("AWS_DEFAULT_REGION", env.region)
        , ("AWS_ACCOUNT_ID", env.account)
        , ("DOCKER_ASSET_S3_BUCKET", docker_asset.s3_bucket_name)
        , ("DOCKER_ASSET_S3_KEY", docker_asset.s3_object_key) ]
      build_spec :=
        { version := "0.2"
          phases :=
            [ { name := "pre_build"
                commands :=
                  [ "echo Logging in to Amazon ECR..."
                  , "aws ecr get-login-password --region $AWS_DEFAULT_REGION | docker login --username AWS --password-stdin $AWS_ACCOUNT_ID.dkr.ecr.$AWS_DEFAULT_REGION.amazonaws.com"
                  , "echo Downloading Docker context from S3..."
                  , "aws s3 cp s3://$DOCKER_ASSET_S3_BUCKET/$DOCKER_ASSET_S3_KEY docker-context.zip"
                  , "unzip docker-context.zip -d docker-context" ] }
            , { name := "build"
                commands :=
                  [ "echo Build started on `date`"
                  , "echo Building the Docker image..."
                  , "cd docker-context"
                  , "docker build -t $ECR_REPOSITORY_URI:$IMAGE_TAG ." ] }
            , { name := "post_build"
                commands :=
                  [ "echo Build completed on `date`"
                  , "echo Pushing the Docker image..."
                  , "docker push $ECR_REPOSITORY_URI:$IMAGE_TAG" ] } ] } }
  { ecr_repository := ecr_repository
    docker_asset := docker_asset
    codebuild_project := codebuild_project
    grants :=
      [ { target := GrantTarget.repository ecr_repository.repository_name
          actions := [Action.pull, Action.push] }
      , { target := GrantTarget.asset docker_asset.s3_bucket_name docker_asset.s3_object_key
          actions := [Action.read] } ]
    suppressions :=
      [ { id := "AwsSolutions-CB3"
          reason := "Privileged mode is required for Docker builds in CodeBuild." }
      , { id := "AwsSolutions-CB4"
          reason := "Using AWS managed keys is acceptable for sample purposes." } ]
    image_tag := "latest" }

/-- Look up an environment variable's value by name. -/
def lookupVar (vars : List (String × String)) (n : String) : Option String :=
  (vars.find? (fun p => p.1 == n)).map (fun p => p.2)

/-- `dropLeading pre l` strips the leading occurrence of `pre` from `l`,
or fails when `pre` does not lead `l`. -/
def dropLeading : List Char → List Char → Option (List Char)
  | [], l => some l
  | _ :: _, [] => none
  | a :: as, b :: bs => if a = b then dropLeading as bs else none

/-- `dropTrailing suf l` strips the trailing occurrence of `suf` from `l`,
or fails when `l` does not end in `suf`. -/
def dropTrailing (suf l : List Char) : Option (List Char) :=
  (dropLeading suf.reverse l.reverse).map List.reverse

/-- Split a character list at its first colon. -/
def splitAtColon : List Char → Option (List Char × List Char)
  | [] => none
  | c :: cs =>
    if c = ':' then some ([], cs)
    else (splitAtColon cs).map (fun p => (c :: p.1, p.2))

/-- Interpret one shell token: a `$NAME` reference resolves through the
environment variables, anything else denotes itself. -/
def evalToken (vars : List (String × String)) (s : String) : Option String :=
  match s.toList with
  | '$' :: name => lookupVar vars (String.mk name)
  | _ => some s

/-- Interpret an image reference of the shape `repo:tag` occurring in a
shell command, resolving `$NAME` tokens on either side of the colon. -/
def evalRef (vars : List (String × String)) (r : String) : Option (String × String) :=
  match splitAtColon r.toList with
  | some (u, t) =>
    match evalToken vars (String.mk u), evalToken vars (String.mk t) with
    | some u2, some t2 => some (u2, t2)
    | _, _ => none
  | none => none

/-- The image references a list of shell commands pushes
(arguments of `docker push`). -/
def dockerPushTargets (cmds : List String) : List String :=
  cmds.filterMap (fun c =>
    (dropLeading "docker push ".toList c.toList).map String.mk)

/-- The image references a list of shell commands tags at build time
(the `-t` arguments of `docker build -t REF .`). -/
def dockerBuildTags (cmds : List String) : List String :=
  cmds.filterMap (fun c =>
    ((dropLeading "docker build -t ".toList c.toList).bind
      (dropTrailing " .".toList)).map String.mk)

/-- The phase of the given name in a build-spec, if present. -/
def findPhase (bs : BuildSpec) (n : String) : Option Phase :=
  bs.phases.find? (fun p => p.name == n)

/-! ## The v2 variant, modelled from the spec

The repository's spec describes a second variant of the construct whose
source file is not present here.  The definitions below model exactly the
v2 behaviour the claims refer to, from the spec's words. -/

/-- Modelled from the spec: the v2 construct's tag resolution, absent from
the sources.  The spec: v2 "resolves a dynamic tag from the build trigger's
source version (falling back to a static default)"; "when no triggering
source version is supplied, the resolved tag must equal the literal
fallback \"latest\"; when one is supplied, the resolved tag must equal
that value". -/
def v2ResolvedTag (sourceVersion : Option String) : String :=
  sourceVersion.getD "latest"

/-- Modelled from the spec: the v2 construct's fixed image tag; the spec
says the dynamic tag defaults "to the fixed tag's value when no source
version is available", and the fallback is the literal "latest". -/
def v2FixedTag : String := "latest"

/-- Modelled from the spec: the v2 construct's registry name, absent from
the sources.  The spec: the "registry name is either a fixed literal (v1)
or templated with the supplied suffix (v2) to support multiple parallel
environments"; the name is "the templated form including the supplied
suffix". -/
def v2RepositoryName (suffix : String) : String :=
  "comfyui-repository-" ++ suffix

/-- Modelled from the spec: the v2 construct's registry declaration —
templated name, retain removal policy, image scanning on push. -/
structure V2Repository where
  repository_name : String
  removal_policy : RemovalPolicy
  image_scan_on_push : Bool
deriving DecidableEq, Repr

/-- Modelled from the spec: the part of the v2 construct the claims refer
to — the registry declaration and the push (post_build) phase of its
build-spec, which "pushes both a fixed and a dynamic tag".  The dynamic
tag is the one `v2ResolvedTag` resolves from the triggering source
version. -/
structure V2ConstructState where
  ecr_repository : V2Repository
  push_phase_tags : List String
  image_tag : String
deriving DecidableEq, Repr

/-- Modelled from the spec: the v2 construct, as a function of the naming
suffix and the triggering source version (when the claims need the
resolved tag). -/
def codeBuildConstructV2 (suffix : String) (sourceVersion : Option String) :
    V2ConstructState :=
  { ecr_repository :=
      { repository_name := v2RepositoryName suffix
        removal_policy := RemovalPolicy.retain
        image_scan_on_push := true }
    push_phase_tags := [v2FixedTag, v2ResolvedTag sourceVersion]
    image_tag := v2FixedTag }

/-! ## Removal-policy teardown semantics, modelled from the spec -/

/-- Modelled from the spec: what stack teardown does to a registry holding
the given images — framework semantics outside the sources.  The spec:
"the registry persists independently of the project's lifecycle when the
retain policy is used (v2); under the destroy policy (v1) the registry is
deleted, and must be empty, when the stack is torn down".  The result is
`none` when the registry is deleted, `some imgs` with its remaining images
when it persists; deletion requires the registry to be empty, and
`empty_on_delete` empties a destroyed registry first so that the
must-be-empty condition holds. -/
def teardown (r : Repository) (images : List String) : Option (List String) :=
  match r.removal_policy with
  | RemovalPolicy.retain => some images
  | RemovalPolicy.destroy =>
    if r.empty_on_delete || images.isEmpty then none else some images

/-- Modelled from the spec: teardown of a registry declared with the v2
variant's retain policy — "the registry persists independently of the
project's lifecycle when the retain policy is used". -/
def teardownV2 (r : V2Repository) (images : List String) : Option (List String) :=
  match r.removal_policy with
  | RemovalPolicy.retain => some images
  | RemovalPolicy.destroy => if images.isEmpty then none else some images

/-- A concrete scope resolution used to instantiate universally
quantified theorems at explicit inputs. -/
def sampleEnv : Env :=
  { account := "111111111111"
    region := "us-east-1"
    asset_bucket := "cdk-assets-bucket"
    asset_key := "0123456789abcdef.zip" }

/-- The environment-variable names the spec lists for v1 (registry URI,
account id, region, asset bucket and key), stated from the spec's words
for comparison with the names the source actually declares. -/
def c8ClaimedVarNames : List String :=
  [ "ECR_REPOSITORY_URI", "AWS_ACCOUNT_ID", "AWS_DEFAULT_REGION"
  , "DOCKER_ASSET_S3_BUCKET", "DOCKER_ASSET_S3_KEY" ]

/-! ## Theorems -/

/-- Claim C1: for every instantiation of the construct, the generated
build-spec contains exactly three phases — pre_build, build, post_build,
in that order — and each phase contains exactly its documented shell
commands in their documented order (pre_build: registry login then asset
download and unpack; build: image build and tag; post_build: push). -/
theorem buildSpec_phases_exact (env : Env) (construct_id : String) :
    (codeBuildConstruct env construct_id).codebuild_project.build_spec.phases =
      [ { name := "pre_build"
          commands :=
            [ "echo Logging in to Amazon ECR..."
            , "aws ecr get-login-password --region $AWS_DEFAULT_REGION | docker login --username AWS --password-stdin $AWS_ACCOUNT_ID.dkr.ecr.$AWS_DEFAULT_REGION.amazonaws.com"
            , "echo Downloading Docker context from S3..."
            , "aws s3 cp s3://$DOCKER_ASSET_S3_BUCKET/$DOCKER_ASSET_S3_KEY docker-context.zip"
            , "unzip docker-context.zip -d docker-context" ] }
      , { name := "build"
          commands :=
            [ "echo Build started on `date`"
            , "echo Building the Docker image..."
            , "cd docker-context"
            , "docker build -t $ECR_REPOSITORY_URI:$IMAGE_TAG ." ] }
      , { name := "post_build"
          commands :=
            [ "echo Build completed on `date`"
            , "echo Pushing the Docker image..."
            , "docker push $ECR_REPOSITORY_URI:$IMAGE_TAG" ] } ] := rfl

/-- Claim C2: for every instantiation of the construct, the set of
permission grants issued from the build project is exactly pull/push on
the created registry and read on the uploaded build-context asset, and no
grant is broader than these two. -/
theorem grants_exact (env : Env) (construct_id : String) :
    (codeBuildConstruct env construct_id).grants =
      [ { target := GrantTarget.repository
            (codeBuildConstruct env construct_id).ecr_repository.repository_name
          actions := [Action.pull, Action.push] }
      , { target := GrantTarget.asset
            (codeBuildConstruct env construct_id).docker_asset.s3_bucket_name
            (codeBuildConstruct env construct_id).docker_asset.s3_object_key
          actions := [Action.read] } ] := rfl

/-- Claim C3: invariant over the declared configuration — the post_build
phase pushes exactly one image reference, the build phase tags exactly
that same reference, and under the construct's environment variables that
reference resolves to the created registry's URI joined with the tag the
construct records (`image_tag`). -/
theorem pushed_tags_invariant (env : Env) (construct_id : String) :
    ((findPhase (codeBuildConstruct env construct_id).codebuild_project.build_spec
        "post_build").map (fun p => dockerPushTargets p.commands) =
      some ["$ECR_REPOSITORY_URI:$IMAGE_TAG"]) ∧
    ((findPhase (codeBuildConstruct env construct_id).codebuild_project.build_spec
        "build").map (fun p => dockerBuildTags p.commands) =
      some ["$ECR_REPOSITORY_URI:$IMAGE_TAG"]) ∧
    (evalRef (codeBuildConstruct env construct_id).codebuild_project.environment_variables
        "$ECR_REPOSITORY_URI:$IMAGE_TAG" =
      some (repositoryUri env
              (codeBuildConstruct env construct_id).ecr_repository.repository_name,
            (codeBuildConstruct env construct_id).image_tag)) := by
  refine ⟨?_, ?_, ?_⟩ <;> rfl

/-- Claim C4: the registry name declared by the v1 construct equals the
fixed literal "comfyui-repository" for every instantiation; the registry
name declared by the v2 construct (modelled from the spec) equals the
templated form, which includes the supplied suffix, for all non-empty
suffix values. -/
theorem repository_name_v1_v2 (env : Env) (construct_id : String)
    (suffix : String) (sv : Option String) (h : suffix ≠ "") :
    (codeBuildConstruct env construct_id).ecr_repository.repository_name =
      "comfyui-repository" ∧
    (codeBuildConstructV2 suffix sv).ecr_repository.repository_name =
      v2RepositoryName suffix ∧
    suffix.toList <:+
      (codeBuildConstructV2 suffix sv).ecr_repository.repository_name.toList := by
  refine ⟨rfl, rfl, ?_⟩
  show suffix.data <:+ ("comfyui-repository-" ++ suffix).data
  rw [String.data_append]
  exact List.suffix_append _ _

/-- Witness for C4 at a concrete non-empty suffix. -/
theorem repository_name_v1_v2_witness :
    (codeBuildConstruct sampleEnv "CodeBuild").ecr_repository.repository_name =
      "comfyui-repository" ∧
    (codeBuildConstructV2 "dev" none).ecr_repository.repository_name =
      v2RepositoryName "dev" ∧
    "dev".toList <:+
      (codeBuildConstructV2 "dev" none).ecr_repository.repository_name.toList :=
  repository_name_v1_v2 sampleEnv "CodeBuild" "dev" none (by decide)

/-- Claim C5: the v1 construct declares removal policy destroy (with
empty-on-delete) on the registry, and under the spec's teardown semantics
the registry is emptied and deleted when the stack is torn down; the v2
construct (modelled from the spec) declares removal policy retain, under
which the registry persists with its images across teardown. -/
theorem removal_policy_lifecycle (env : Env) (construct_id : String)
    (suffix : String) (sv : Option String) (images : List String) :
    (codeBuildConstruct env construct_id).ecr_repository.removal_policy =
      RemovalPolicy.destroy ∧
    (codeBuildConstruct env construct_id).ecr_repository.empty_on_delete = true ∧
    teardown (codeBuildConstruct env construct_id).ecr_repository images = none ∧
    (codeBuildConstructV2 suffix sv).ecr_repository.removal_policy =
      RemovalPolicy.retain ∧
    teardownV2 (codeBuildConstructV2 suffix sv).ecr_repository images = some images := by
  exact ⟨rfl, rfl, rfl, rfl, rfl⟩

/-- Claim C6: in the v2 construct (modelled from the spec), the resolved
image tag equals the literal fallback "latest" when no triggering source
version is supplied and equals the supplied value otherwise, and both the
fixed tag and the resolved tag appear in the push phase of the generated
build-spec. -/
theorem v2_tag_resolution (suffix : String) (v : String) (sv : Option String) :
    v2ResolvedTag none = "latest" ∧
    v2ResolvedTag (some v) = v ∧
    v2FixedTag ∈ (codeBuildConstructV2 suffix sv).push_phase_tags ∧
    v2ResolvedTag sv ∈ (codeBuildConstructV2 suffix sv).push_phase_tags := by
  refine ⟨rfl, rfl, ?_, ?_⟩
  · show v2FixedTag ∈ [v2FixedTag, v2ResolvedTag sv]
    exact List.mem_cons_self _ _
  · show v2ResolvedTag sv ∈ [v2FixedTag, v2ResolvedTag sv]
    exact List.mem_cons_of_mem _ (List.mem_cons_self _ _)

/-- Claim C7: for every instantiation the construct exposes the created
registry, the created build project and the tag value as its attributes:
the exposed tag is "latest", it is the value of the IMAGE_TAG variable,
the exposed registry is the one the ECR_REPOSITORY_URI variable points
at, and the single reference the project is configured to push resolves
to that registry's URI with exactly the exposed tag. -/
theorem construct_outputs (env : Env) (construct_id : String) :
    (codeBuildConstruct env construct_id).image_tag = "latest" ∧
    lookupVar (codeBuildConstruct env construct_id).codebuild_project.environment_variables
        "IMAGE_TAG" = some (codeBuildConstruct env construct_id).image_tag ∧
    lookupVar (codeBuildConstruct env construct_id).codebuild_project.environment_variables
        "ECR_REPOSITORY_URI" =
      some (repositoryUri env
        (codeBuildConstruct env construct_id).ecr_repository.repository_name) ∧
    ((findPhase (codeBuildConstruct env construct_id).codebuild_project.build_spec
        "post_build").map (fun p =>
          (dockerPushTargets p.commands).map
            (evalRef (codeBuildConstruct env construct_id).codebuild_project.environment_variables)) =
      some [some (repositoryUri env
                    (codeBuildConstruct env construct_id).ecr_repository.repository_name,
                  (codeBuildConstruct env construct_id).image_tag)]) := by
  refine ⟨?_, ?_, ?_, ?_⟩ <;> rfl

/-- Counterexample to claim C8 as stated: at a concrete instantiation the
construct exposes the IMAGE_TAG environment variable, which is not among
the five names the claim lists, so the exposed set is not exactly that
set. -/
theorem env_vars_include_image_tag :
    "IMAGE_TAG" ∈ ((codeBuildConstruct sampleEnv "CodeBuild").codebuild_project.environment_variables.map
      Prod.fst) ∧
    "IMAGE_TAG" ∉ c8ClaimedVarNames := by
  exact ⟨by decide, by decide⟩

/-- Claim C8 as amended: the set of environment variables the v1 construct
exposes to the build phases is exactly the registry URI, the fixed image
tag, the region, the account id, and the asset bucket and key. -/
theorem env_var_names_exact (env : Env) (construct_id : String) :
    (codeBuildConstruct env construct_id).codebuild_project.environment_variables.map
        Prod.fst =
      [ "ECR_REPOSITORY_URI", "IMAGE_TAG", "AWS_DEFAULT_REGION"
      , "AWS_ACCOUNT_ID", "DOCKER_ASSET_S3_BUCKET", "DOCKER_ASSET_S3_KEY" ] := rfl

/-- Claim C9: every instantiation attaches suppressions for exactly the
two known warnings — privileged build mode (AwsSolutions-CB3) and
provider-managed encryption keys (AwsSolutions-CB4) — to the build
project, each with a non-empty stated justification. -/
theorem suppressions_exact (env : Env) (construct_id : String) :
    (codeBuildConstruct env construct_id).suppressions =
      [ { id := "AwsSolutions-CB3"
          reason := "Privileged mode is required for Docker builds in CodeBuild." }
      , { id := "AwsSolutions-CB4"
          reason := "Using AWS managed keys is acceptable for sample purposes." } ] ∧
    ((codeBuildConstruct env construct_id).suppressions.all
      (fun s => !(s.reason == ""))) = true := by
  exact ⟨rfl, rfl⟩

/-- Claim C10: construction is deterministic — the declared configuration
is a function of the scope's resolved context and the construct id alone;
the scope-independent parts (registry declaration, build-spec, variable
names, literal tag value, suppressions, exposed tag) coincide across all
instantiations, and equal scope contexts yield identical configurations. -/
theorem construction_deterministic (e1 e2 : Env) (id1 id2 : String) :
    ((codeBuildConstruct e1 id1).ecr_repository =
      (codeBuildConstruct e2 id2).ecr_repository) ∧
    ((codeBuildConstruct e1 id1).codebuild_project.build_spec =
      (codeBuildConstruct e2 id2).codebuild_project.build_spec) ∧
    ((codeBuildConstruct e1 id1).codebuild_project.environment_variables.map Prod.fst =
      (codeBuildConstruct e2 id2).codebuild_project.environment_variables.map Prod.fst) ∧
    (lookupVar (codeBuildConstruct e1 id1).codebuild_project.environment_variables
        "IMAGE_TAG" =
      lookupVar (codeBuildConstruct e2 id2).codebuild_project.environment_variables
        "IMAGE_TAG") ∧
    ((codeBuildConstruct e1 id1).image_tag = (codeBuildConstruct e2 id2).image_tag) ∧
    ((codeBuildConstruct e1 id1).suppressions = (codeBuildConstruct e2 id2).suppressions) ∧
    (e1 = e2 → codeBuildConstruct e1 id1 = codeBuildConstruct e2 id2) := by
  refine ⟨rfl, rfl, rfl, rfl, rfl, rfl, ?_⟩
  intro h
  cases h
  rfl

/-- Witness for C10: two runs over the same scope context with different
construct ids declare identical configurations. -/
theorem construction_deterministic_witness :
    codeBuildConstruct sampleEnv "A" = codeBuildConstruct sampleEnv "B" :=
  (construction_deterministic sampleEnv sampleEnv "A" "B").2.2.2.2.2.2 rfl

end ComfyUI
